import Mathlib

/-!
Shallow embedding of `src/clickup-api-setup-script.py` (class `ClickUpSetup`).

The script issues HTTP calls through `requests`; we model the transport as a
state-passing function from (method, endpoint, body) to a result, and record
every issued request in a log so that temporal and counting properties can be
stated.  Python dicts are modelled as insertion-ordered association lists with
replace-on-assign semantics, matching CPython dict behaviour.
-/

namespace ClickUp

/-- HTTP methods dispatched by `make_request` (the `if/elif` chain handles
exactly GET, POST and PUT). -/
inductive Method where
  | GET
  | POST
  | PUT
deriving DecidableEq, Repr

/-- Minimal JSON values, enough for the request bodies the script builds
(`space_data`, `folder_data`, `list_data`, `field_data`). -/
inductive Json where
  | str (s : String)
  | jbool (b : Bool)
  | null
  | obj (fields : List (String × Json))
  | arr (items : List Json)
deriving Repr

/-- Field lookup in a JSON object (used by the echoing test transport). -/
def Json.getField : Json → String → Option Json
  | Json.obj fields, k => List.lookup k fields
  | _, _ => none

/-- String value of a JSON object field, empty when absent. -/
def Json.getStr (j : Json) (k : String) : String :=
  match Json.getField j k with
  | some (Json.str s) => s
  | _ => ""

/-- Boolean value of a JSON object field, `false` when absent (mirrors
Python `result.get("required", False)`). -/
def Json.getBool (j : Json) (k : String) : Bool :=
  match Json.getField j k with
  | some (Json.jbool b) => b
  | _ => false

/-- One HTTP request issued by the script: method, endpoint (relative to
`base_url`) and optional JSON body. -/
structure Request where
  method : Method
  endpoint : String
  body : Option Json

/-- The response fields the script reads from a parsed JSON body:
`result["id"]`, `result["name"]`, `result["type"]`, `result.get("required", False)`. -/
structure RespJson where
  id : String
  name : String
  rtype : String
  required : Bool
deriving Repr

/-- Outcome of one transport call: a parsed 2xx JSON body, a non-2xx status
(`raise_for_status` raises `HTTPError`), or a transport-level
`RequestException` (connection error and the like). -/
inductive TResult where
  | ok (r : RespJson)
  | httpError (status : Nat)
  | netError

/-- A state-passing transport: given method, endpoint, optional body and the
current remote state, produce a result and the next remote state. -/
def Transport (σ : Type) := Method → String → Option Json → σ → TResult × σ

/-- Python-dict assignment `d[k] = v` on an insertion-ordered association
list: replace in place when the key exists, append otherwise. -/
def setKey {α : Type} : List (String × α) → String → α → List (String × α)
  | [], k, v => [(k, v)]
  | (k', v') :: rest, k, v =>
      if k' == k then (k, v) :: rest else (k', v') :: setKey rest k v

/-- One entry of `self.config["lists"]`: `{"id": ..., "name": ...}`. -/
structure ListEntry where
  id : String
  name : String
deriving Repr, DecidableEq

/-- One entry of `self.config["custom_fields"][list_key]`:
`{"id": ..., "type": ..., "required": ...}`. -/
structure FieldEntry where
  id : String
  rtype : String
  required : Bool
deriving Repr, DecidableEq

/-- The `self.config` dictionary built by `ClickUpSetup.__init__` and mutated
by the creation methods. -/
structure Config where
  workspace_id : String
  space_id : Option String
  folder_id : Option String
  lists : List (String × ListEntry)
  custom_fields : List (String × List (String × FieldEntry))
  statuses : List (String × Json)
  created_at : String
deriving Repr

/-- The `ClickUpSetup` object state: constructor arguments plus `config`
(`base_url` and `headers` are derived constants). -/
structure Setup where
  api_token : String
  team_id : String
  config : Config
deriving Repr

/-- `ClickUpSetup.__init__`: store the token and team id and initialise the
config dictionary; `created_at` is `datetime.now().isoformat()`, passed in
explicitly here. -/
def init (api_token team_id now : String) : Setup :=
  { api_token := api_token
    team_id := team_id
    config :=
      { workspace_id := team_id
        space_id := none
        folder_id := none
        lists := []
        custom_fields := []
        statuses := []
        created_at := now } }

/-- `ClickUpSetup.make_request`: issue the call; on a 2xx response return the
parsed JSON, and on `RequestException` (raised transport failure or
`raise_for_status` on a non-2xx status) print the error and return `None`.
There is no retry: the transport is invoked exactly once, and the single
issued request is returned as the log. -/
def make_request {σ : Type} (t : Transport σ) (m : Method) (endpoint : String)
    (data : Option Json) (st : σ) : Option RespJson × σ × List Request :=
  match t m endpoint data st with
  | (TResult.ok r, st') => (some r, st', [⟨m, endpoint, data⟩])
  | (TResult.httpError _, st') => (none, st', [⟨m, endpoint, data⟩])
  | (TResult.netError, st') => (none, st', [⟨m, endpoint, data⟩])

/-- Result of one creation method: the Python return value, the mutated
object state, the remote state, and the requests issued. -/
structure StepResult (α : Type) (σ : Type) where
  value : α
  setup : Setup
  remote : σ
  log : List Request

/-- The `space_data` payload literal in `create_space`. -/
def space_data : Json :=
  Json.obj
    [("name", Json.str "Fido Operations"),
     ("multiple_assignees", Json.jbool true),
     ("features", Json.obj
       [("due_dates", Json.obj [("enabled", Json.jbool true)]),
        ("time_tracking", Json.obj [("enabled", Json.jbool true)]),
        ("tags", Json.obj [("enabled", Json.jbool true)]),
        ("time_estimates", Json.obj [("enabled", Json.jbool true)]),
        ("checklists", Json.obj [("enabled", Json.jbool true)]),
        ("custom_fields", Json.obj [("enabled", Json.jbool true)]),
        ("remap_dependencies", Json.obj [("enabled", Json.jbool true)]),
        ("dependency_warning", Json.obj [("enabled", Json.jbool true)]),
        ("portfolios", Json.obj [("enabled", Json.jbool true)])])]

/-- `ClickUpSetup.create_space`: a single unconditional
`POST /team/{team_id}/space`; on success store and return `result["id"]`,
on failure return `None` leaving the config untouched.  No lookup of
existing spaces is performed. -/
def create_space {σ : Type} (t : Transport σ) (s : Setup) (st : σ) :
    StepResult (Option String) σ :=
  match make_request t Method.POST ("/team/" ++ s.team_id ++ "/space")
      (some space_data) st with
  | (some r, st', log) =>
      ⟨some r.id,
       { s with config := { s.config with space_id := some r.id } }, st', log⟩
  | (none, st', log) => ⟨none, s, st', log⟩

/-- The `folder_data` payload literal in `create_folder`. -/
def folder_data : Json := Json.obj [("name", Json.str "CX Tickets")]

/-- `ClickUpSetup.create_folder`: a single unconditional
`POST /space/{space_id}/folder`; on success store and return `result["id"]`,
on failure return `None`.  No lookup of existing folders is performed. -/
def create_folder {σ : Type} (t : Transport σ) (space_id : String) (s : Setup)
    (st : σ) : StepResult (Option String) σ :=
  match make_request t Method.POST ("/space/" ++ space_id ++ "/folder")
      (some folder_data) st with
  | (some r, st', log) =>
      ⟨some r.id,
       { s with config := { s.config with folder_id := some r.id } }, st', log⟩
  | (none, st', log) => ⟨none, s, st', log⟩

/-- One entry of the `lists_config` literal in `create_lists`. -/
structure ListConfig where
  name : String
  key : String
  content : String

/-- The `lists_config` literal in `create_lists`. -/
def lists_config : List ListConfig :=
  [⟨"Service Issues", "service_issues",
    "Customer service issues and complaints requiring operations team attention"⟩,
   ⟨"Customer Inquiries", "customer_inquiries",
    "Customer questions and inquiries requiring CX team response"⟩,
   ⟨"Unit Management", "unit_management",
    "Unit changes, additions, cancellations requiring BPO team processing"⟩]

/-- The `list_data` payload built for each entry of `lists_config`. -/
def list_data (lc : ListConfig) : Json :=
  Json.obj
    [("name", Json.str lc.name),
     ("content", Json.str lc.content),
     ("due_date", Json.null),
     ("due_date_time", Json.jbool false),
     ("priority", Json.null),
     ("assignee", Json.null),
     ("status", Json.str "red")]

/-- The `for list_config in lists_config` loop body of `create_lists`: POST
each list; on success record `{"id", "name"}` under the list key; on failure
print and continue with the remaining lists. -/
def create_lists_go {σ : Type} (t : Transport σ) (folder_id : String) :
    List ListConfig → Setup → σ → Setup × σ × List Request
  | [], s, st => (s, st, [])
  | lc :: rest, s, st =>
      match make_request t Method.POST ("/folder/" ++ folder_id ++ "/list")
          (some (list_data lc)) st with
      | (some r, st', log) =>
          let s' := { s with config :=
            { s.config with
              lists := setKey s.config.lists lc.key ⟨r.id, r.name⟩ } }
          let (s'', st'', log') := create_lists_go t folder_id rest s' st'
          (s'', st'', log ++ log')
      | (none, st', log) =>
          let (s'', st'', log') := create_lists_go t folder_id rest s st'
          (s'', st'', log ++ log')

/-- `ClickUpSetup.create_lists`: create the three ticket lists, then return
`len(self.config["lists"]) == 3`.  A failed list is skipped (not retried,
not aborted) and simply missing from the config. -/
def create_lists {σ : Type} (t : Transport σ) (folder_id : String) (s : Setup)
    (st : σ) : StepResult Bool σ :=
  let (s', st', log) := create_lists_go t folder_id lists_config s st
  ⟨s'.config.lists.length == 3, s', st', log⟩

/-- One dropdown option literal `{"name": ..., "color": ...}` inside a
`type_config`. -/
structure OptionSpec where
  name : String
  color : String

/-- One field-definition dictionary inside `create_custom_fields`:
`name`, `type`, `required`, `description`, and for dropdowns a
`type_config` with its ordered option list. -/
structure FieldSpec where
  name : String
  ftype : String
  required : Bool
  description : String
  type_config : Option (List OptionSpec)

/-- The declared option list of the `Market Code` dropdown field. -/
def market_code_options : List OptionSpec :=
  [⟨"ANA", "#FF6B6B"⟩, ⟨"ATX", "#4ECDC4"⟩, ⟨"CHS", "#45B7D1"⟩,
   ⟨"CLT", "#96CEB4"⟩, ⟨"DEN", "#FFEAA7"⟩, ⟨"DFW", "#DDA0DD"⟩,
   ⟨"FLL", "#98D8C8"⟩, ⟨"GEG", "#F7DC6F"⟩, ⟨"HOT", "#BB8FCE"⟩,
   ⟨"JAX", "#85C1E9"⟩, ⟨"LAX", "#F8C471"⟩, ⟨"LIT", "#82E0AA"⟩,
   ⟨"PHX", "#F1948A"⟩, ⟨"PIE", "#85C1E9"⟩, ⟨"SAN", "#A9DFBF"⟩,
   ⟨"SAT", "#D7BDE2"⟩, ⟨"SDX", "#FAD7A0"⟩, ⟨"SEA", "#AED6F1"⟩,
   ⟨"SLC", "#A3E4D7"⟩, ⟨"SRQ", "#D5A6BD"⟩, ⟨"STA", "#F9E79F"⟩,
   ⟨"STS", "#ABEBC6"⟩, ⟨"VPS", "#D2B4DE"⟩, ⟨"MISC", "#BDC3C7"⟩]

/-- The `universal_fields` literal: fields created on every list. -/
def universal_fields : List FieldSpec :=
  [⟨"Slack Ticket ID", "short_text", true,
    "Unique ticket identifier from Slack (FI-, FQ-, FU-)", none⟩,
   ⟨"Slack Permalink", "url", true, "Direct link to Slack thread", none⟩,
   ⟨"Submitted By", "short_text", true,
    "Slack user who created the ticket", none⟩,
   ⟨"Property Address", "short_text", true,
    "Full property address including unit", none⟩,
   ⟨"Client Name", "short_text", true,
    "Property manager or client company", none⟩,
   ⟨"Market Code", "drop_down", true, "Service market location",
    some market_code_options⟩,
   ⟨"Date Created", "date", true, "Date ticket was submitted", none⟩,
   ⟨"Source Method", "drop_down", true, "How the issue was reported",
    some [⟨"OpenPhone Text", "#3498DB"⟩, ⟨"Phone Call", "#E74C3C"⟩,
          ⟨"Email", "#F39C12"⟩, ⟨"Slack Message", "#9B59B6"⟩,
          ⟨"Website Form", "#1ABC9C"⟩, ⟨"In-Person", "#34495E"⟩,
          ⟨"Internal Discovery", "#95A5A6"⟩]⟩,
   ⟨"Source Reference", "short_text", false,
    "Message ID, email, or other reference", none⟩]

/-- The `service_issue_fields` literal. -/
def service_issue_fields : List FieldSpec :=
  [⟨"Issue Type", "drop_down", true, "Category of service issue",
    some [⟨"Bin Placement Issue", "#E74C3C"⟩,
          ⟨"Property Access Problem", "#F39C12"⟩,
          ⟨"Schedule Conflict", "#F1C40F"⟩,
          ⟨"Property Logistics Issue", "#3498DB"⟩,
          ⟨"Service Quality Issue", "#9B59B6"⟩,
          ⟨"Customer Complaint", "#E67E22"⟩,
          ⟨"Equipment Issue", "#34495E"⟩,
          ⟨"Other Issue", "#95A5A6"⟩]⟩,
   ⟨"Priority Level", "drop_down", true,
    "Issue urgency and resolution timeframe",
    some [⟨"URGENT - Immediate Response", "#C0392B"⟩,
          ⟨"HIGH - Same Day Resolution", "#E74C3C"⟩,
          ⟨"NORMAL - Next Business Day", "#F39C12"⟩,
          ⟨"LOW - When Available", "#27AE60"⟩]⟩,
   ⟨"Issue Description", "long_text", true,
    "Detailed description of the problem", none⟩,
   ⟨"Resolution Status", "drop_down", false, "Current resolution status",
    some [⟨"Open", "#E74C3C"⟩, ⟨"In Progress", "#F39C12"⟩,
          ⟨"Resolved", "#27AE60"⟩, ⟨"Closed", "#95A5A6"⟩]⟩,
   ⟨"Assigned Operator", "short_text", false,
    "Operations team member assigned", none⟩,
   ⟨"Resolution Notes", "long_text", false,
    "Actions taken to resolve issue", none⟩]

/-- The `customer_inquiry_fields` literal. -/
def customer_inquiry_fields : List FieldSpec :=
  [⟨"Inquiry Type", "drop_down", true, "Category of customer inquiry",
    some [⟨"Schedule Question", "#3498DB"⟩,
          ⟨"Service Status Check", "#1ABC9C"⟩,
          ⟨"Billing Question", "#F39C12"⟩,
          ⟨"Service Details", "#9B59B6"⟩,
          ⟨"New Service Interest", "#27AE60"⟩,
          ⟨"Pause/Resume Service", "#E67E22"⟩,
          ⟨"Property Information Update", "#34495E"⟩,
          ⟨"General Information", "#95A5A6"⟩,
          ⟨"Other Question", "#BDC3C7"⟩]⟩,
   ⟨"Response Priority", "drop_down", true, "Response urgency level",
    some [⟨"URGENT - Customer Waiting", "#C0392B"⟩,
          ⟨"HIGH - Same Day", "#E74C3C"⟩,
          ⟨"NORMAL - Next Day", "#F39C12"⟩,
          ⟨"LOW - When Available", "#27AE60"⟩]⟩,
   ⟨"Customer Question", "long_text", true,
    "Detailed customer inquiry or question", none⟩,
   ⟨"Response Status", "drop_down", false, "Current response status",
    some [⟨"Pending", "#E74C3C"⟩, ⟨"In Progress", "#F39C12"⟩,
          ⟨"Responded", "#27AE60"⟩, ⟨"Closed", "#95A5A6"⟩]⟩,
   ⟨"Assigned CX Rep", "short_text", false,
    "CX team member handling inquiry", none⟩,
   ⟨"Response Notes", "long_text", false,
    "Response provided to customer", none⟩,
   ⟨"Follow-up Required", "checkbox", false,
    "Whether additional follow-up is needed", none⟩]

/-- The `unit_management_fields` literal. -/
def unit_management_fields : List FieldSpec :=
  [⟨"Change Type", "drop_down", true, "Type of unit management change",
    some [⟨"NEW UNIT", "#27AE60"⟩, ⟨"CANCELLATION", "#E74C3C"⟩,
          ⟨"PAUSE SERVICE", "#F39C12"⟩, ⟨"RESTART SERVICE", "#3498DB"⟩,
          ⟨"MODIFY SERVICE", "#9B59B6"⟩]⟩,
   ⟨"Trash Pickup Day", "drop_down", false, "Scheduled trash pickup day",
    some [⟨"Monday", "#E74C3C"⟩, ⟨"Tuesday", "#F39C12"⟩,
          ⟨"Wednesday", "#F1C40F"⟩, ⟨"Thursday", "#27AE60"⟩,
          ⟨"Friday", "#3498DB"⟩, ⟨"Saturday", "#9B59B6"⟩,
          ⟨"Sunday", "#E67E22"⟩]⟩,
   ⟨"Recycling Day", "drop_down", false, "Scheduled recycling pickup day",
    some [⟨"Same as Trash", "#1ABC9C"⟩, ⟨"Monday", "#E74C3C"⟩,
          ⟨"Tuesday", "#F39C12"⟩, ⟨"Wednesday", "#F1C40F"⟩,
          ⟨"Thursday", "#27AE60"⟩, ⟨"Friday", "#3498DB"⟩,
          ⟨"Saturday", "#9B59B6"⟩, ⟨"Sunday", "#E67E22"⟩,
          ⟨"No Recycling", "#95A5A6"⟩]⟩,
   ⟨"Effective Date", "date", true,
    "Date when change should take effect", none⟩,
   ⟨"Reason for Change", "long_text", true,
    "Business reason for the change", none⟩,
   ⟨"Special Instructions", "long_text", false,
    "Special handling or access instructions", none⟩,
   ⟨"Processing Status", "drop_down", false, "Current processing status",
    some [⟨"Pending", "#E74C3C"⟩, ⟨"In Progress", "#F39C12"⟩,
          ⟨"Completed", "#27AE60"⟩, ⟨"On Hold", "#95A5A6"⟩]⟩,
   ⟨"Assigned BPO Rep", "short_text", false,
    "BPO team member processing change", none⟩,
   ⟨"Implementation Notes", "long_text", false,
    "Notes on implementation process", none⟩]

/-- The `field_sets` dictionary: per-list-key field list, in insertion
order. -/
def field_sets : List (String × List FieldSpec) :=
  [("service_issues", universal_fields ++ service_issue_fields),
   ("customer_inquiries", universal_fields ++ customer_inquiry_fields),
   ("unit_management", universal_fields ++ unit_management_fields)]

/-- The `field_data` payload built for one field: `name`, `type`,
`field.get("required", False)`, plus `type_config` when present. -/
def field_data (f : FieldSpec) : Json :=
  Json.obj
    ([("name", Json.str f.name),
      ("type", Json.str f.ftype),
      ("required", Json.jbool f.required)] ++
     (match f.type_config with
      | some opts =>
          [("type_config", Json.obj
            [("options", Json.arr (opts.map fun o =>
               Json.obj [("name", Json.str o.name),
                         ("color", Json.str o.color)]))])]
      | none => []))

/-- The inner `for field in fields` loop of `create_custom_fields`: POST
each field to `/list/{list_id}/field`; on success record
`{"id": result["id"], "type": result["type"], "required": result.get("required", False)}`
under the field name; on failure print and continue with the remaining
fields. -/
def create_fields_go {σ : Type} (t : Transport σ) (list_id list_key : String) :
    List FieldSpec → Setup → σ → Setup × σ × List Request
  | [], s, st => (s, st, [])
  | f :: rest, s, st =>
      match make_request t Method.POST ("/list/" ++ list_id ++ "/field")
          (some (field_data f)) st with
      | (some r, st', log) =>
          let cur := (List.lookup list_key s.config.custom_fields).getD []
          let cf := setKey s.config.custom_fields list_key
            (setKey cur f.name ⟨r.id, r.rtype, r.required⟩)
          let s' := { s with config := { s.config with custom_fields := cf } }
          let (s'', st'', log') := create_fields_go t list_id list_key rest s' st'
          (s'', st'', log ++ log')
      | (none, st', log) =>
          let (s'', st'', log') := create_fields_go t list_id list_key rest s st'
          (s'', st'', log ++ log')

/-- The outer `for list_key, fields in field_sets.items()` loop of
`create_custom_fields`: skip a list key absent from `config["lists"]`,
otherwise reset its field map to `{}` and create each field. -/
def create_custom_fields_go {σ : Type} (t : Transport σ) :
    List (String × List FieldSpec) → Setup → σ → Setup × σ × List Request
  | [], s, st => (s, st, [])
  | (key, fields) :: rest, s, st =>
      match List.lookup key s.config.lists with
      | none => create_custom_fields_go t rest s st
      | some le =>
          let cf0 := setKey s.config.custom_fields key []
          let s0 := { s with config := { s.config with custom_fields := cf0 } }
          let (s1, st1, log1) := create_fields_go t le.id key fields s0 st
          let (s2, st2, log2) := create_custom_fields_go t rest s1 st1
          (s2, st2, log1 ++ log2)

/-- `ClickUpSetup.create_custom_fields`: iterate `field_sets` over the
created lists; has no return value and no abort path — failures are
printed and skipped. -/
def create_custom_fields {σ : Type} (t : Transport σ) (s : Setup) (st : σ) :
    Setup × σ × List Request :=
  create_custom_fields_go t field_sets s st

/-- The JSON object `json.dump(self.config, ...)` writes to
`clickup-config.json`. -/
def config_json (c : Config) : Json :=
  Json.obj
    [("workspace_id", Json.str c.workspace_id),
     ("space_id", match c.space_id with
       | some i => Json.str i
       | none => Json.null),
     ("folder_id", match c.folder_id with
       | some i => Json.str i
       | none => Json.null),
     ("lists", Json.obj (c.lists.map fun kv =>
        (kv.1, Json.obj [("id", Json.str kv.2.id),
                         ("name", Json.str kv.2.name)]))),
     ("custom_fields", Json.obj (c.custom_fields.map fun kv =>
        (kv.1, Json.obj (kv.2.map fun fe =>
          (fe.1, Json.obj [("id", Json.str fe.2.id),
                           ("type", Json.str fe.2.rtype),
                           ("required", Json.jbool fe.2.required)]))))),
     ("statuses", Json.obj c.statuses),
     ("created_at", Json.str c.created_at)]

/-- `self.config.get("space_id", ...)` under an f-string: the key always
exists (initialised to `None`), so the default never fires and an unset id
renders as the string `None`. -/
def render_opt (o : Option String) : String :=
  match o with
  | some i => i
  | none => "None"

/-- `self.config["lists"].get(key, {}).get("id", "LIST_ID_HERE")`: the
placeholder appears when the list key is absent (its creation failed). -/
def render_list_id (c : Config) (key : String) : String :=
  match List.lookup key c.lists with
  | some e => e.id
  | none => "LIST_ID_HERE"

/-- The `env_vars` f-string written to `clickup-env-vars.txt`.  The
`CLICKUP_API_TOKEN` line is the literal placeholder `your_api_token_here`;
the real token is never interpolated.  `now` is the
`datetime.now().isoformat()` value of the `Generated:` line. -/
def env_vars (s : Setup) (now : String) : String :=
  "# ClickUp Configuration for Fido Ticketing System\n# Generated: " ++ now ++
  "\n\n# ClickUp API Configuration\nCLICKUP_API_TOKEN=your_api_token_here\nCLICKUP_TEAM_ID=" ++
  s.team_id ++
  "\nCLICKUP_SPACE_ID=" ++ render_opt s.config.space_id ++
  "\nCLICKUP_FOLDER_ID=" ++ render_opt s.config.folder_id ++
  "\n\n# List IDs\nCLICKUP_LIST_ID_ISSUES=" ++
  render_list_id s.config "service_issues" ++
  "\nCLICKUP_LIST_ID_INQUIRIES=" ++
  render_list_id s.config "customer_inquiries" ++
  "\nCLICKUP_LIST_ID_UNITS=" ++
  render_list_id s.config "unit_management" ++
  "\n\n# Webhook Configuration\nCLICKUP_WEBHOOK_SECRET=your_webhook_secret_here\n"

/-- `ClickUpSetup.export_configuration`: the contents of the two files it
writes — `clickup-config.json` and `clickup-env-vars.txt`. -/
def export_configuration (s : Setup) (now : String) : Json × String :=
  (config_json s.config, env_vars s now)

/-- Python truthiness of the ids checked by `if not space_id` /
`if not folder_id`: `None` and the empty string are falsy. -/
def truthy (o : Option String) : Bool :=
  match o with
  | some i => !i.isEmpty
  | none => false

/-- Outcome of `run_setup`: its boolean return value, the final object and
remote states, every request issued, and the exported file contents
(`none` when `export_configuration` was never reached). -/
structure RunOutcome (σ : Type) where
  success : Bool
  setup : Setup
  remote : σ
  log : List Request
  exported : Option (Json × String)

/-- `ClickUpSetup.run_setup`: space, then folder, then lists — each of these
aborts the run (returning `False`, nothing exported) when it fails — then
`create_custom_fields` (whose failures do not abort) and, unconditionally
after it, `export_configuration`. -/
def run_setup {σ : Type} (t : Transport σ) (s : Setup) (st : σ) (now : String) :
    RunOutcome σ :=
  match create_space t s st with
  | ⟨space_id, s1, st1, log1⟩ =>
    if !truthy space_id then ⟨false, s1, st1, log1, none⟩
    else
      match create_folder t (space_id.getD "") s1 st1 with
      | ⟨folder_id, s2, st2, log2⟩ =>
        if !truthy folder_id then ⟨false, s2, st2, log1 ++ log2, none⟩
        else
          match create_lists t (folder_id.getD "") s2 st2 with
          | ⟨ok, s3, st3, log3⟩ =>
            if !ok then ⟨false, s3, st3, log1 ++ log2 ++ log3, none⟩
            else
              let (s4, st4, log4) := create_custom_fields t s3 st3
              ⟨true, s4, st4, log1 ++ log2 ++ log3 ++ log4,
               some (export_configuration s4 now)⟩

/-- Identifier assigned by the fake remote to the n-th accepted call. -/
def echo_id (n : Nat) : String := "id" ++ toString n

/-- Response body of the fake remote: a fresh id plus the echoed `name`,
`type` and `required` of the posted payload, as the real API does. -/
def echo_resp (body : Option Json) (n : Nat) : RespJson :=
  let b := body.getD Json.null
  ⟨echo_id n, Json.getStr b "name", Json.getStr b "type", Json.getBool b "required"⟩

/-- A remote workspace that accepts every call, assigning ids `id0`, `id1`,
… in call order; the state counts calls made so far, so running again
continues the numbering (same remote, new resources). -/
def freshT : Transport Nat := fun _m _ep body n =>
  (TResult.ok (echo_resp body n), n + 1)

/-- A transport that answers HTTP 429 (rate limited) to every call. -/
def always429T : Transport Nat := fun _m _ep _body n =>
  (TResult.httpError 429, n + 1)

/-- A transport that answers a fixed non-2xx status to every call. -/
def constErrT (code : Nat) : Transport Unit := fun _m _ep _body u =>
  (TResult.httpError code, u)

/-- A transport whose every call raises a `RequestException` before any
response arrives. -/
def netErrT : Transport Unit := fun _m _ep _body u =>
  (TResult.netError, u)

/-- A transport that accepts the first `k` calls and answers HTTP 500 from
then on. -/
def failAfterT (k : Nat) : Transport Nat := fun _m _ep body n =>
  if n < k then (TResult.ok (echo_resp body n), n + 1)
  else (TResult.httpError 500, n + 1)

/-- A concrete `ClickUpSetup` instance (token, the team id hardcoded in
`main`, a creation timestamp). -/
def setup0 : Setup := init "secret-token" "9013484736" "2025-01-01T00:00:00"

/-- Timestamp of the `Generated:` line in the exported env file. -/
def now0 : String := "2025-01-01T00:05:00"

/-- First full run against an empty accepting remote. -/
def run1 : RunOutcome Nat := run_setup freshT setup0 0 now0

/-- Second full run of a fresh `ClickUpSetup` against the remote state left
by `run1` (the call counter continues, so the same remote). -/
def run2 : RunOutcome Nat := run_setup freshT setup0 run1.remote now0

/-- A run in which space, folder and the three lists succeed (calls 0–4) and
every custom-field creation fails with HTTP 500. -/
def run_fail_fields : RunOutcome Nat := run_setup (failAfterT 5) setup0 0 now0

/-- A run in which the space succeeds (call 0) and the folder creation
(call 1) fails with HTTP 500. -/
def run_fail_folder : RunOutcome Nat := run_setup (failAfterT 1) setup0 0 now0

/-- A run in which space, folder and the first two lists succeed
(calls 0–3) and every later call fails with HTTP 500, so the third list is
missing and `create_lists` returns `False`. -/
def run_fail_lists : RunOutcome Nat := run_setup (failAfterT 4) setup0 0 now0

/-- The endpoint sequence a fully successful run issues against the
accepting remote: space under the team, folder under the space (`id0`),
the three lists under the folder (`id1`), then the 15, 16 and 18 fields
under the three list ids (`id2`, `id3`, `id4`) in that order. -/
def expected_endpoints : List String :=
  ["/team/9013484736/space", "/space/id0/folder"] ++
  List.replicate 3 "/folder/id1/list" ++
  List.replicate 15 "/list/id2/field" ++
  List.replicate 16 "/list/id3/field" ++
  List.replicate 18 "/list/id4/field"

/-- The lines of the env-vars file exported by the fully successful `run1`,
newline-joined; the `CLICKUP_API_TOKEN` line is the fixed placeholder. -/
def env_lines : List String :=
  ["# ClickUp Configuration for Fido Ticketing System",
   "# Generated: 2025-01-01T00:05:00",
   "",
   "# ClickUp API Configuration",
   "CLICKUP_API_TOKEN=your_api_token_here",
   "CLICKUP_TEAM_ID=9013484736",
   "CLICKUP_SPACE_ID=id0",
   "CLICKUP_FOLDER_ID=id1",
   "",
   "# List IDs",
   "CLICKUP_LIST_ID_ISSUES=id2",
   "CLICKUP_LIST_ID_INQUIRIES=id3",
   "CLICKUP_LIST_ID_UNITS=id4",
   "",
   "# Webhook Configuration",
   "CLICKUP_WEBHOOK_SECRET=your_webhook_secret_here",
   ""]

/-- The keys of an optional JSON object (empty for anything else). -/
def json_keys : Option Json → List String
  | some (Json.obj fs) => fs.map Prod.fst
  | _ => []

/-- Navigate the exported configuration JSON to the record of one custom
field: `config["custom_fields"][list_key][field_name]`. -/
def exported_field (c : Config) (list_key field_name : String) : Option Json :=
  ((Json.getField (config_json c) "custom_fields").bind
    fun j => Json.getField j list_key).bind
    fun j => Json.getField j field_name

/-! ## Helper lemmas -/

/-- `make_request` issues exactly the one request it was asked, whatever the
transport answers. -/
theorem make_request_log {σ : Type} (t : Transport σ) (m : Method) (ep : String)
    (d : Option Json) (st : σ) : (make_request t m ep d st).2.2 = [⟨m, ep, d⟩] := by
  unfold make_request
  rcases t m ep d st with ⟨res, st'⟩
  cases res <;> rfl

/-- `create_space` issues exactly one request: the unconditional creation
POST, with no preceding lookup. -/
theorem create_space_log {σ : Type} (t : Transport σ) (s : Setup) (st : σ) :
    (create_space t s st).log =
      [⟨Method.POST, "/team/" ++ s.team_id ++ "/space", some space_data⟩] := by
  unfold create_space make_request
  rcases t Method.POST ("/team/" ++ s.team_id ++ "/space") (some space_data) st with ⟨res, st'⟩
  cases res <;> rfl

/-- `create_folder` issues exactly one request: the unconditional creation
POST, with no preceding lookup. -/
theorem create_folder_log {σ : Type} (t : Transport σ) (fid : String) (s : Setup)
    (st : σ) : (create_folder t fid s st).log =
      [⟨Method.POST, "/space/" ++ fid ++ "/folder", some folder_data⟩] := by
  unfold create_folder make_request
  rcases t Method.POST ("/space/" ++ fid ++ "/folder") (some folder_data) st with ⟨res, st'⟩
  cases res <;> rfl

/-- `create_space` never touches `config["statuses"]`. -/
theorem create_space_statuses {σ : Type} (t : Transport σ) (s : Setup) (st : σ) :
    (create_space t s st).setup.config.statuses = s.config.statuses := by
  unfold create_space make_request
  rcases t Method.POST ("/team/" ++ s.team_id ++ "/space") (some space_data) st with ⟨res, st'⟩
  cases res <;> rfl

/-- `create_folder` never touches `config["statuses"]`. -/
theorem create_folder_statuses {σ : Type} (t : Transport σ) (fid : String)
    (s : Setup) (st : σ) :
    (create_folder t fid s st).setup.config.statuses = s.config.statuses := by
  unfold create_folder make_request
  rcases t Method.POST ("/space/" ++ fid ++ "/folder") (some folder_data) st with ⟨res, st'⟩
  cases res <;> rfl

/-- The list-creation loop only issues POST requests. -/
theorem create_lists_go_all_post {σ : Type} (t : Transport σ) (fid : String)
    (lcs : List ListConfig) (s : Setup) (st : σ) :
    ((create_lists_go t fid lcs s st).2.2.all fun r => r.method == Method.POST) = true := by
  induction lcs generalizing s st with
  | nil => rfl
  | cons lc rest ih =>
      unfold create_lists_go
      rcases hm : make_request t Method.POST ("/folder/" ++ fid ++ "/list")
          (some (list_data lc)) st with ⟨r?, st', lg⟩
      have hlg : lg = [⟨Method.POST, "/folder/" ++ fid ++ "/list", some (list_data lc)⟩] := by
        have := make_request_log t Method.POST ("/folder/" ++ fid ++ "/list")
          (some (list_data lc)) st
        rw [hm] at this
        exact this
      cases r? <;> simp only [] <;>
        · subst hlg
          simp [List.all_append, ih]

/-- The list-creation loop never touches `config["statuses"]`. -/
theorem create_lists_go_statuses {σ : Type} (t : Transport σ) (fid : String)
    (lcs : List ListConfig) (s : Setup) (st : σ) :
    (create_lists_go t fid lcs s st).1.config.statuses = s.config.statuses := by
  induction lcs generalizing s st with
  | nil => rfl
  | cons lc rest ih =>
      unfold create_lists_go
      rcases make_request t Method.POST ("/folder/" ++ fid ++ "/list")
          (some (list_data lc)) st with ⟨r?, st', lg⟩
      cases r? <;> simp only [] <;> exact ih _ _

/-- The field-creation inner loop only issues POST requests. -/
theorem create_fields_go_all_post {σ : Type} (t : Transport σ) (lid lkey : String)
    (fs : List FieldSpec) (s : Setup) (st : σ) :
    ((create_fields_go t lid lkey fs s st).2.2.all fun r => r.method == Method.POST) = true := by
  induction fs generalizing s st with
  | nil => rfl
  | cons f rest ih =>
      unfold create_fields_go
      rcases hm : make_request t Method.POST ("/list/" ++ lid ++ "/field")
          (some (field_data f)) st with ⟨r?, st', lg⟩
      have hlg : lg = [⟨Method.POST, "/list/" ++ lid ++ "/field", some (field_data f)⟩] := by
        have := make_request_log t Method.POST ("/list/" ++ lid ++ "/field")
          (some (field_data f)) st
        rw [hm] at this
        exact this
      cases r? <;> simp only [] <;>
        · subst hlg
          simp [List.all_append, ih]

/-- The field-creation inner loop never touches `config["statuses"]`. -/
theorem create_fields_go_statuses {σ : Type} (t : Transport σ) (lid lkey : String)
    (fs : List FieldSpec) (s : Setup) (st : σ) :
    (create_fields_go t lid lkey fs s st).1.config.statuses = s.config.statuses := by
  induction fs generalizing s st with
  | nil => rfl
  | cons f rest ih =>
      unfold create_fields_go
      rcases make_request t Method.POST ("/list/" ++ lid ++ "/field")
          (some (field_data f)) st with ⟨r?, st', lg⟩
      cases r? <;> simp only [] <;> exact ih _ _

/-- The field-creation outer loop only issues POST requests. -/
theorem create_custom_fields_go_all_post {σ : Type} (t : Transport σ)
    (sets : List (String × List FieldSpec)) (s : Setup) (st : σ) :
    ((create_custom_fields_go t sets s st).2.2.all fun r => r.method == Method.POST) = true := by
  induction sets generalizing s st with
  | nil => rfl
  | cons kv rest ih =>
      rcases kv with ⟨key, fields⟩
      unfold create_custom_fields_go
      rcases List.lookup key s.config.lists with _ | le
      · exact ih _ _
      · simp only []
        rcases hf : create_fields_go t le.id key fields _ st with ⟨s1, st1, log1⟩
        have h1 := create_fields_go_all_post t le.id key fields
          { s with config := { s.config with custom_fields := setKey s.config.custom_fields key [] } } st
        rw [hf] at h1
        simp [List.all_append, h1, ih]

/-- The field-creation outer loop never touches `config["statuses"]`. -/
theorem create_custom_fields_go_statuses {σ : Type} (t : Transport σ)
    (sets : List (String × List FieldSpec)) (s : Setup) (st : σ) :
    (create_custom_fields_go t sets s st).1.config.statuses = s.config.statuses := by
  induction sets generalizing s st with
  | nil => rfl
  | cons kv rest ih =>
      rcases kv with ⟨key, fields⟩
      unfold create_custom_fields_go
      rcases List.lookup key s.config.lists with _ | le
      · exact ih _ _
      · simp only []
        rcases hf : create_fields_go t le.id key fields _ st with ⟨s1, st1, log1⟩
        have h1 := create_fields_go_statuses t le.id key fields
          { s with config := { s.config with custom_fields := setKey s.config.custom_fields key [] } } st
        rw [hf] at h1
        rw [ih s1 st1, h1]

/-- Every request `run_setup` issues, on any transport, is a POST: the
script performs no GET lookups and no PUT overwrites. -/
theorem run_setup_all_post {σ : Type} (t : Transport σ) (s : Setup) (st : σ)
    (now : String) :
    ((run_setup t s st now).log.all fun r => r.method == Method.POST) = true := by
  rcases hsp : create_space t s st with ⟨sid, s1, st1, log1⟩
  rcases hfo : create_folder t (sid.getD "") s1 st1 with ⟨fid, s2, st2, log2⟩
  rcases hls : create_lists t (fid.getD "") s2 st2 with ⟨ok, s3, st3, log3⟩
  rcases hcf : create_custom_fields t s3 st3 with ⟨s4, st4, log4⟩
  have hl1 : log1 = [⟨Method.POST, "/team/" ++ s.team_id ++ "/space", some space_data⟩] := by
    have h := create_space_log t s st
    rw [hsp] at h
    exact h
  have hl2 : log2 = [⟨Method.POST, "/space/" ++ sid.getD "" ++ "/folder", some folder_data⟩] := by
    have h := create_folder_log t (sid.getD "") s1 st1
    rw [hfo] at h
    exact h
  have hl3 : (log3.all fun r => r.method == Method.POST) = true := by
    have h := create_lists_go_all_post t (fid.getD "") lists_config s2 st2
    have he : create_lists_go t (fid.getD "") lists_config s2 st2 =
        ((create_lists t (fid.getD "") s2 st2).setup,
         (create_lists t (fid.getD "") s2 st2).remote,
         (create_lists t (fid.getD "") s2 st2).log) := rfl
    rw [hls] at he
    rw [he] at h
    exact h
  have hl4 : (log4.all fun r => r.method == Method.POST) = true := by
    have h := create_custom_fields_go_all_post t field_sets s3 st3
    have he : create_custom_fields_go t field_sets s3 st3 =
        create_custom_fields t s3 st3 := rfl
    rw [he, hcf] at h
    exact h
  unfold run_setup
  rw [hsp]
  dsimp only []
  rw [hfo]
  dsimp only []
  rw [hls]
  dsimp only []
  rw [hcf]
  cases htr1 : truthy sid <;> cases htr2 : truthy fid <;> cases hok : ok <;>
    simp [hl1, hl2, hl3, hl4, List.all_append]

/-- `run_setup` never writes `config["statuses"]`: it is whatever
`__init__` put there (the empty dict), on every run. -/
theorem run_setup_statuses {σ : Type} (t : Transport σ) (s : Setup) (st : σ)
    (now : String) :
    (run_setup t s st now).setup.config.statuses = s.config.statuses := by
  rcases hsp : create_space t s st with ⟨sid, s1, st1, log1⟩
  rcases hfo : create_folder t (sid.getD "") s1 st1 with ⟨fid, s2, st2, log2⟩
  rcases hls : create_lists t (fid.getD "") s2 st2 with ⟨ok, s3, st3, log3⟩
  rcases hcf : create_custom_fields t s3 st3 with ⟨s4, st4, log4⟩
  have h1 : s1.config.statuses = s.config.statuses := by
    have h := create_space_statuses t s st
    rw [hsp] at h
    exact h
  have h2 : s2.config.statuses = s1.config.statuses := by
    have h := create_folder_statuses t (sid.getD "") s1 st1
    rw [hfo] at h
    exact h
  have h3 : s3.config.statuses = s2.config.statuses := by
    have h := create_lists_go_statuses t (fid.getD "") lists_config s2 st2
    have he : create_lists_go t (fid.getD "") lists_config s2 st2 =
        ((create_lists t (fid.getD "") s2 st2).setup,
         (create_lists t (fid.getD "") s2 st2).remote,
         (create_lists t (fid.getD "") s2 st2).log) := rfl
    rw [hls] at he
    rw [he] at h
    exact h
  have h4 : s4.config.statuses = s3.config.statuses := by
    have h := create_custom_fields_go_statuses t field_sets s3 st3
    have he : create_custom_fields_go t field_sets s3 st3 =
        create_custom_fields t s3 st3 := rfl
    rw [he, hcf] at h
    exact h
  unfold run_setup
  rw [hsp]
  dsimp only []
  rw [hfo]
  dsimp only []
  rw [hls]
  dsimp only []
  rw [hcf]
  cases htr1 : truthy sid <;> cases htr2 : truthy fid <;> cases hok : ok <;>
    simp [h1, h2, h3, h4]

/-! ## Claim theorems -/

set_option maxRecDepth 80000 in
/-- C1 counterexample: the claim of idempotence fails.  Two consecutive full
runs against the same remote workspace (the call counter continues across
runs) export different identifier mappings — the first run's space gets
`id0`, the second run creates a fresh space `id54` — and the second run
performs 54 creation (POST) calls, not zero. -/
theorem C1_counterexample :
    run1.setup.config.space_id = some "id0" ∧
    run2.setup.config.space_id = some "id54" ∧
    run1.exported.map Prod.snd ≠ run2.exported.map Prod.snd ∧
    (run2.log.filter fun r => r.method == Method.POST).length = 54 :=
  ⟨rfl, rfl, by decide, by decide⟩

/-- C1 amended: there is no find-or-create step, so re-running the setup
against the remote state left by a first run performs the full set of 54
creation calls again and exports a mapping with different (freshly created)
space and folder identifiers. -/
theorem C1_theorem :
    run2.success = true ∧
    run2.log.map (fun r => r.method) = List.replicate 54 Method.POST ∧
    run2.setup.config.space_id ≠ run1.setup.config.space_id ∧
    run2.setup.config.folder_id ≠ run1.setup.config.folder_id :=
  ⟨rfl, by decide, by decide, by decide⟩

/-- C2 counterexample: the claim that each node reconciliation first fetches
the existing siblings under its parent fails.  A fully successful run issues
54 requests and not a single GET: no sibling list is ever fetched and no
name matching happens before any creation call. -/
theorem C2_counterexample :
    run1.success = true ∧
    (run1.log.filter fun r => r.method == Method.GET).length = 0 ∧
    run1.log.length = 54 :=
  ⟨rfl, by decide, by decide⟩

/-- C2 amended: every node is created unconditionally.  `create_space` and
`create_folder` each issue exactly one POST (no preceding lookup), and on
any transport every request the whole setup issues is a POST — there is no
fetch-and-match step for any resource kind. -/
theorem C2_theorem :
    (∀ (σ : Type) (t : Transport σ) (s : Setup) (st : σ),
      (create_space t s st).log =
        [⟨Method.POST, "/team/" ++ s.team_id ++ "/space", some space_data⟩]) ∧
    (∀ (σ : Type) (t : Transport σ) (fid : String) (s : Setup) (st : σ),
      (create_folder t fid s st).log =
        [⟨Method.POST, "/space/" ++ fid ++ "/folder", some folder_data⟩]) ∧
    (∀ (σ : Type) (t : Transport σ) (s : Setup) (st : σ) (now : String),
      ((run_setup t s st now).log.all fun r => r.method == Method.POST) = true) :=
  ⟨fun _ t s st => create_space_log t s st,
   fun _ t fid s st => create_folder_log t fid s st,
   fun _ t s st now => run_setup_all_post t s st now⟩

/-- C3 counterexample: the all-or-nothing claim fails.  Under a transport
where the space, folder and lists succeed and every custom-field creation
then fails (HTTP 500), the run does not abort: it continues through all 49
failing fields, writes both output files, and reports success, leaving
every per-list field map empty. -/
theorem C3_counterexample :
    run_fail_fields.success = true ∧
    run_fail_fields.exported.isSome = true ∧
    List.lookup "service_issues" run_fail_fields.setup.config.custom_fields = some [] ∧
    List.lookup "customer_inquiries" run_fail_fields.setup.config.custom_fields = some [] ∧
    List.lookup "unit_management" run_fail_fields.setup.config.custom_fields = some [] :=
  ⟨rfl, rfl, by decide, by decide, by decide⟩

/-- C3 amended: only space, folder and list-count failures abort the run
before any output file is written — shown at every stage: a space failure
(every uniformly failing transport, both non-2xx and raised-exception), a
folder failure after a successful space (two requests, nothing exported),
and a third-list failure after a successful folder (the loop still tries
all three lists, only two are recorded, nothing exported).  Custom-field
failures, by contrast, neither abort the run nor prevent the export — the
configuration files are still written and the run still reports success. -/
theorem C3_theorem :
    (∀ (code : Nat) (s : Setup) (st : Unit) (now : String),
      (run_setup (constErrT code) s st now).success = false ∧
      (run_setup (constErrT code) s st now).exported = none) ∧
    (∀ (s : Setup) (st : Unit) (now : String),
      (run_setup netErrT s st now).success = false ∧
      (run_setup netErrT s st now).exported = none) ∧
    (run_fail_folder.success = false ∧ run_fail_folder.exported = none ∧
      run_fail_folder.log.length = 2 ∧
      run_fail_folder.setup.config.space_id = some "id0" ∧
      run_fail_folder.setup.config.folder_id = none) ∧
    (run_fail_lists.success = false ∧ run_fail_lists.exported = none ∧
      run_fail_lists.log.length = 5 ∧
      run_fail_lists.setup.config.lists.length = 2) ∧
    run_fail_fields.success = true ∧
    run_fail_fields.exported.isSome = true :=
  ⟨fun _ _ _ _ => ⟨rfl, rfl⟩, fun _ _ _ => ⟨rfl, rfl⟩,
   ⟨rfl, rfl, rfl, rfl, rfl⟩, ⟨rfl, rfl, rfl, rfl⟩, rfl, rfl⟩

/-- C4 counterexample: the retry claim fails.  Under a transport that
answers HTTP 429 to every call, reconciling a single resource (the space)
makes exactly one attempt — the remote call counter is 1 and the request
log has one entry — produces no identifier, and returns `None`; there is
no second attempt and no retry-exhaustion error. -/
theorem C4_counterexample :
    (create_space always429T setup0 0).value = none ∧
    (create_space always429T setup0 0).remote = 1 ∧
    (create_space always429T setup0 0).log.length = 1 :=
  ⟨rfl, rfl, rfl⟩

/-- C4 amended: every non-2xx status — 429 and 409 included, with no
distinction — is terminal after a single attempt: `make_request` issues
exactly one request and returns `None`, and `create_space` returns `None`
leaving the configuration untouched, uniformly in the status code. -/
theorem C4_theorem :
    (∀ (code : Nat) (m : Method) (ep : String) (d : Option Json) (st : Unit),
      make_request (constErrT code) m ep d st = (none, st, [⟨m, ep, d⟩])) ∧
    (∀ (code : Nat) (s : Setup) (st : Unit),
      create_space (constErrT code) s st =
        ⟨none, s, st, [⟨Method.POST, "/team/" ++ s.team_id ++ "/space", some space_data⟩]⟩) ∧
    (create_space always429T setup0 0).remote = 1 :=
  ⟨fun _ _ _ _ _ => rfl, fun _ _ _ => rfl, rfl⟩

/-- C5 counterexample: the option-completeness claim fails.  After a fully
successful run, the exported record of the declared dropdown field
`Market Code` is just `{id, type, required}`: none of its 24 declared
option labels appears as a key anywhere in the exported record, and no
option identifier is captured at all. -/
theorem C5_counterexample :
    run1.success = true ∧
    exported_field run1.setup.config "service_issues" "Market Code" =
      some (Json.obj [("id", Json.str "id10"), ("type", Json.str "drop_down"),
                      ("required", Json.jbool true)]) ∧
    ((market_code_options.map OptionSpec.name).all fun l =>
      ((exported_field run1.setup.config "service_issues" "Market Code").bind
        fun j => Json.getField j l).isNone) = true :=
  ⟨rfl, rfl, rfl⟩

/-- C5 amended: once reconciliation of a dropdown field completes, the
exported record for it carries exactly the keys `id`, `type` and
`required` — the script reads back only `result["id"]`, `result["type"]`
and `result.get("required")` and never stores an option-label-to-identifier
map, although 24 option labels are declared for `Market Code`. -/
theorem C5_theorem :
    json_keys (exported_field run1.setup.config "service_issues" "Market Code") =
      ["id", "type", "required"] ∧
    List.lookup "Market Code"
        ((List.lookup "service_issues" run1.setup.config.custom_fields).getD []) =
      some ⟨"id10", "drop_down", true⟩ ∧
    market_code_options.length = 24 :=
  ⟨rfl, by decide, rfl⟩

/-- C6 counterexample: the precondition-check claim fails.  In a fully
successful run the folder-creation POST is the immediate second request
after the space-creation POST, with no intervening call of any kind — and
the whole run contains no GET at all, so no custom-field-capability
verification is ever performed before folder work begins. -/
theorem C6_counterexample :
    (run1.log.map fun r => (r.method, r.endpoint)).take 2 =
      [(Method.POST, "/team/9013484736/space"),
       (Method.POST, "/space/id0/folder")] ∧
    (run1.log.filter fun r => r.method == Method.GET).length = 0 :=
  ⟨by decide, by decide⟩

/-- C6 amended: the script never verifies the custom-field capability; it
merely requests the capability inside the space-creation payload
(`features.custom_fields.enabled = true`) and proceeds directly to folder
creation, the second endpoint hit in a successful run. -/
theorem C6_theorem :
    (Json.getField space_data "features").bind
      (fun j => Json.getField j "custom_fields") =
      some (Json.obj [("enabled", Json.jbool true)]) ∧
    (run1.log.map fun r => r.endpoint).take 2 =
      ["/team/9013484736/space", "/space/id0/folder"] ∧
    (run1.log.all fun r => r.method == Method.POST) = true :=
  ⟨rfl, by decide, by decide⟩

/-- C7 counterexample: the status-overwrite claim fails.  A fully successful
run issues no overwrite (PUT) request at all and leaves the exported
`statuses` map empty — no list's status workflow is ever written, let alone
matched to a declared status set. -/
theorem C7_counterexample :
    run1.success = true ∧
    run1.setup.config.statuses = [] ∧
    (run1.log.filter fun r => r.method == Method.PUT).length = 0 :=
  ⟨rfl, rfl, by decide⟩

/-- C7 amended: the script performs no status-workflow operation of any
kind: on every transport and every run, `config["statuses"]` stays exactly
as `__init__` left it (the empty dict) and every issued request is a POST,
so no status overwrite is ever sent. -/
theorem C7_theorem :
    (∀ (σ : Type) (t : Transport σ) (s : Setup) (st : σ) (now : String),
      (run_setup t s st now).setup.config.statuses = s.config.statuses ∧
      ((run_setup t s st now).log.all fun r => r.method == Method.POST) = true) ∧
    (init "token" "team" "ts").config.statuses = [] :=
  ⟨fun _ t s st now => ⟨run_setup_statuses t s st now, run_setup_all_post t s st now⟩,
   rfl⟩

/-- C8 counterexample: the claimed per-list "apply status workflow, then
reconcile fields" step does not exist.  A successful run reconciles all
three lists and issues 54 requests, yet contains zero status-application
(PUT) requests anywhere in the sequence. -/
theorem C8_counterexample :
    run1.setup.config.lists.length = 3 ∧
    (run1.log.filter fun r => r.method == Method.PUT).length = 0 ∧
    run1.log.length = 54 :=
  ⟨rfl, by decide, by decide⟩

set_option maxRecDepth 80000 in
/-- C8 amended: reconciliation order is Space, then Folder (under the new
space id), then all three Lists (under the new folder id), then the fields
of each list in declared list order (under each list's id) — parent
identifiers are threaded into the child endpoints, but there is no status
step: the full request sequence is exactly the 54 creation POSTs. -/
theorem C8_theorem :
    run1.log.map (fun r => r.endpoint) = expected_endpoints ∧
    run1.log.map (fun r => r.method) = List.replicate 54 Method.POST ∧
    run1.setup.config.space_id = some "id0" ∧
    run1.setup.config.folder_id = some "id1" :=
  ⟨by decide, by decide, rfl, rfl⟩

/-- C9: when the transport fails (raises or returns a non-2xx status),
`make_request` returns `None` rather than propagating an exception, and the
callers observe exactly that `None`: `create_space` and `create_folder`
return `None` leaving the object state untouched, and `run_setup` returns
`False` without exporting. -/
theorem C9_theorem {σ : Type} (t : Transport σ)
    (h : ∀ (m : Method) (ep : String) (d : Option Json) (st : σ)
      (r : RespJson) (st' : σ), t m ep d st ≠ (TResult.ok r, st')) :
    (∀ (m : Method) (ep : String) (d : Option Json) (st : σ),
      (make_request t m ep d st).1 = none) ∧
    (∀ (s : Setup) (st : σ),
      (create_space t s st).value = none ∧ (create_space t s st).setup = s) ∧
    (∀ (fid : String) (s : Setup) (st : σ),
      (create_folder t fid s st).value = none ∧ (create_folder t fid s st).setup = s) ∧
    (∀ (s : Setup) (st : σ) (now : String),
      (run_setup t s st now).success = false ∧
      (run_setup t s st now).exported = none) := by
  have hmr : ∀ (m : Method) (ep : String) (d : Option Json) (st : σ),
      make_request t m ep d st = (none, (t m ep d st).2, [⟨m, ep, d⟩]) := by
    intro m ep d st
    unfold make_request
    rcases ht : t m ep d st with ⟨res, st'⟩
    cases res with
    | ok r => exact absurd ht (h m ep d st r st')
    | httpError c => rfl
    | netError => rfl
  have hsp : ∀ (s : Setup) (st : σ),
      create_space t s st =
        ⟨none, s, (t Method.POST ("/team/" ++ s.team_id ++ "/space") (some space_data) st).2,
         [⟨Method.POST, "/team/" ++ s.team_id ++ "/space", some space_data⟩]⟩ := by
    intro s st
    unfold create_space
    rw [hmr]
  have hfo : ∀ (fid : String) (s : Setup) (st : σ),
      create_folder t fid s st =
        ⟨none, s, (t Method.POST ("/space/" ++ fid ++ "/folder") (some folder_data) st).2,
         [⟨Method.POST, "/space/" ++ fid ++ "/folder", some folder_data⟩]⟩ := by
    intro fid s st
    unfold create_folder
    rw [hmr]
  refine ⟨fun m ep d st => ?_, fun s st => ⟨?_, ?_⟩, fun fid s st => ⟨?_, ?_⟩,
    fun s st now => ⟨?_, ?_⟩⟩
  · rw [hmr]
  · rw [hsp]
  · rw [hsp]
  · rw [hfo]
  · rw [hfo]
  · unfold run_setup
    rw [hsp]
    rfl
  · unfold run_setup
    rw [hsp]
    rfl

/-- C9 witness: the theorem applied to the always-rate-limited transport at
concrete inputs. -/
theorem C9_witness :
    (make_request always429T Method.GET "/team/9013484736/space" none 0).1 = none ∧
    (create_space always429T setup0 0).value = none ∧
    (run_setup always429T setup0 0 now0).success = false := by
  have h := C9_theorem always429T
    (by intro m ep d st r st' hc; simp [always429T] at hc)
  exact ⟨h.1 Method.GET "/team/9013484736/space" none 0,
         (h.2.1 setup0 0).1, (h.2.2.2 setup0 0 now0).1⟩

set_option maxRecDepth 80000 in
/-- C10: the exported file contents do not depend on the API token — two
setups differing only in `api_token` export identical files — and the
`CLICKUP_API_TOKEN` line of the env file is the fixed placeholder
`your_api_token_here`, shown by rendering the concrete run's env file and
locating the placeholder among its lines. -/
theorem C10_theorem :
    (∀ (tok1 tok2 team : String) (cfg : Config) (now : String),
      export_configuration ⟨tok1, team, cfg⟩ now =
        export_configuration ⟨tok2, team, cfg⟩ now) ∧
    env_vars run1.setup now0 = String.intercalate "\n" env_lines ∧
    "CLICKUP_API_TOKEN=your_api_token_here" ∈ env_lines ∧
    env_vars { run1.setup with api_token := "another-token" } now0 =
      env_vars run1.setup now0 :=
  ⟨fun _ _ _ _ _ => rfl, by rfl, by decide, rfl⟩

end ClickUp
